import Mathlib

/-!
Verification development for the slonik-proto bridge sources.

This file gives a shallow embedding, in Lean, of the Rust sources
src/lib.rs, src/connection_sqlx.rs and src/connection_rust_pg.rs of the
slonik-proto repository, together with theorems settling the behavioural
claims made about them.  Machine integers are modelled as Nat bit
patterns with explicit signed reinterpretation; fallible or panicking
code returns Option (none means panic); the external I/O performed by a
function is abstracted as an input parameter carrying its result.
-/

set_option maxHeartbeats 1000000

namespace SlonikProto

/-- Readiness direction, mirroring the slonik_rt reactor Interest enum
used by src/lib.rs (Readable / Writable). -/
inductive Interest
  | Readable
  | Writable
deriving DecidableEq, Repr

/-- The reactor interest table: an association list from
(descriptor, direction) pairs to the pending waker, the waker being
identified by a Nat id. -/
def ReactorState := List ((Int × Interest) × Nat)

/-- Modelled from the spec: Reactor notify (function reactor::on_fd_ready of
the slonik_rt crate, whose source is not under src/).  Per spec section 4.2,
notify looks up and removes the entry for (descriptor, direction); if
present it fires the waker (returned here as some id); if absent the
notification is a silent no-op. -/
def on_fd_ready (fd : Int) (dir : Interest) (st : ReactorState) :
    ReactorState × Option Nat :=
  match st.find? (fun e => e.1.1 == fd && decide (e.1.2 = dir)) with
  | some e => (st.filter (fun x => !(x.1.1 == fd && decide (x.1.2 = dir))), some e.2)
  | none => (st, none)

/-- Entry point callback src/lib.rs on_fd_read_ready: the host notifies
that fd is ready to read; the body is reactor::on_fd_ready(fd, Readable). -/
def on_fd_read_ready (fd : Int) (st : ReactorState) : ReactorState × Option Nat :=
  on_fd_ready fd Interest.Readable st

/-- Entry point callback src/lib.rs on_fd_write_ready: the host notifies
that fd is ready to write; the body is reactor::on_fd_ready(fd, Writable). -/
def on_fd_write_ready (fd : Int) (st : ReactorState) : ReactorState × Option Nat :=
  on_fd_ready fd Interest.Writable st

/-- src/lib.rs one(): returns black_box(1). -/
def one : Nat := 1

/-- src/lib.rs no_op: returns its usize argument unchanged. -/
def no_op (arg : Nat) : Nat := arg

/-- src/lib.rs batch_no_op: calls one() arg times, then returns arg - 1.
The usize subtraction is checked: for arg = 0 it underflows below zero
(a panic in a checked build), modelled as none. -/
def batch_no_op (arg : Nat) : Option Nat :=
  let _calls := (List.range arg).map (fun _ => one)
  if 1 ≤ arg then some (arg - 1) else none

/-- The outcome of one TcpStream read in delayed_http_get: the length the
read returned, and the 128-byte buffer contents after the read. -/
structure ReadOk where
  len : Nat
  buf : List Nat
deriving DecidableEq, Repr

/-- One read result: success with a filled buffer, or a hard I/O error. -/
inductive ReadResult
  | ok (r : ReadOk)
  | err (e : Nat)
deriving DecidableEq, Repr

/-- The chunked read loop of src/lib.rs delayed_http_get (lines 231-244):
each iteration reads into a fresh 128-byte buffer; a len of 0 breaks out of
the loop returning the accumulated page; otherwise buf[..len] is appended
to the page and the loop continues.  The reads the stream would serve are
given as the list argument; the second component counts the reads the loop
issued; none means the supplied list was exhausted with the loop still
running. -/
def httpReadLoop (reads : List ReadResult) (page : List Nat) :
    Option (Except Nat (List Nat) × Nat) :=
  match reads with
  | [] => none
  | ReadResult.err e :: _ => some (Except.error e, 1)
  | ReadResult.ok r :: rest =>
    if r.len = 0 then some (Except.ok page, 1)
    else
      match httpReadLoop rest (page ++ r.buf.take r.len) with
      | none => none
      | some (res, n) => some (res, n + 1)

/-- C1: for every integer descriptor fd, on_fd_read_ready(fd) forwards
exactly to Reactor notify with the Readable direction, and
on_fd_write_ready(fd) forwards exactly to Reactor notify with the Writable
direction, with no other effect on bridge state (the resulting reactor
state and fired waker are exactly those of notify). -/
theorem C1_fd_ready_forwarding (fd : Int) (st : ReactorState) :
    on_fd_read_ready fd st = on_fd_ready fd Interest.Readable st ∧
    on_fd_write_ready fd st = on_fd_ready fd Interest.Writable st :=
  ⟨rfl, rfl⟩

/-- C6: the chunked read loop of delayed_http_get appends to the page
exactly the first len bytes of each chunk read, treats any read with
0 < len (in particular one shorter than the buffer) as success and
continues looping, and terminates at the first read returning 0 without
issuing another read: the result is independent of what follows that read
and exactly goods.length + 1 reads are issued. -/
theorem C6_http_read_loop (goods : List ReadOk) (r0 : ReadOk)
    (rest : List ReadResult) (page : List Nat)
    (hpos : ∀ g ∈ goods, 0 < g.len) (hzero : r0.len = 0) :
    httpReadLoop (goods.map ReadResult.ok ++ ReadResult.ok r0 :: rest) page =
      some (Except.ok (page ++ (goods.map (fun g => g.buf.take g.len)).flatten),
            goods.length + 1) := by
  induction goods generalizing page with
  | nil => simp [httpReadLoop, hzero]
  | cons g gs ih =>
    have hg : 0 < g.len := hpos g (by simp)
    simp only [List.map_cons, List.cons_append, httpReadLoop]
    rw [if_neg (by omega)]
    simp only [List.append_eq]
    rw [ih (page ++ g.buf.take g.len) (fun x hx => hpos x (by simp [hx]))]
    simp [List.append_assoc]

/-- Witness for C6 at a concrete input: one 2-byte chunk followed by a
zero-length read; the page is exactly those 2 bytes, 2 reads are issued,
and the read queued after the zero-length one is never issued. -/
theorem C6_http_read_loop_witness :
    httpReadLoop [ReadResult.ok ⟨2, [7, 8, 9]⟩, ReadResult.ok ⟨0, [1]⟩,
        ReadResult.ok ⟨5, [3]⟩] [] =
      some (Except.ok [7, 8], 2) := by
  have h := C6_http_read_loop [⟨2, [7, 8, 9]⟩] ⟨0, [1]⟩
    [ReadResult.ok ⟨5, [3]⟩] [] (by decide) rfl
  simpa using h

/-- C10: batch_no_op returns arg - 1 for every arg at least 1 and its final
checked subtraction underflows for arg = 0 (modelled as none), while no_op
returns its argument unchanged for every input. -/
theorem C10_batch_no_op (arg : Nat) :
    (1 ≤ arg → batch_no_op arg = some (arg - 1)) ∧
    batch_no_op 0 = none ∧ no_op arg = arg := by
  refine ⟨fun h => ?_, rfl, rfl⟩
  simp [batch_no_op, h]

/-- Witness for C10 at the concrete input 3. -/
theorem C10_batch_no_op_witness : batch_no_op 3 = some 2 :=
  (C10_batch_no_op 3).1 (by decide)

/-- The underlying datum of one result column, as the drivers expose it to
deserialize_column: a bool, a raw integer bit pattern (width given by the
declared column type), a raw float bit pattern, a string, or raw bytes. -/
inductive ColumnData
  | boolD (b : Bool)
  | intD (bits : Nat)
  | floatD (bits : Nat)
  | textD (s : String)
  | bytesD (bs : List Nat)
deriving DecidableEq, Repr

/-- Reinterpret a w-bit pattern as a signed two's-complement integer,
as row.get of an iN type does. -/
def toSigned (w : Nat) (bits : Nat) : Int :=
  if bits < 2 ^ (w - 1) then (bits : Int) else (bits : Int) - 2 ^ w

/-- A Python value produced by deserialize_column.  pyInt records the
machine width of the Rust integer that was converted (i8 gives 8, i16
gives 16, i32 and u32 give 32, i64 gives 64); pyJson bs stands for the
result of json.loads on the bytes bs, and pyUuid bs for uuid.UUID built
from the bytes bs (both deterministic in their byte argument). -/
inductive PyValue
  | pyBool (b : Bool)
  | pyInt (width : Nat) (v : Int)
  | pyFloat32 (bits : Nat)
  | pyFloat64 (bits : Nat)
  | pyStr (s : String)
  | pyJson (bs : List Nat)
  | pyUuid (bs : List Nat)
deriving DecidableEq, Repr

/-- The primitive kind a decoded value belongs to. -/
inductive ColumnKind
  | boolK
  | intK (width : Nat)
  | float32K
  | float64K
  | textK
  | docK
  | uuidK
deriving DecidableEq, Repr

/-- Kind of a decoded Python value. -/
def kindOf : PyValue → ColumnKind
  | PyValue.pyBool _ => ColumnKind.boolK
  | PyValue.pyInt w _ => ColumnKind.intK w
  | PyValue.pyFloat32 _ => ColumnKind.float32K
  | PyValue.pyFloat64 _ => ColumnKind.float64K
  | PyValue.pyStr _ => ColumnKind.textK
  | PyValue.pyJson _ => ColumnKind.docK
  | PyValue.pyUuid _ => ColumnKind.uuidK

/-- Transcription of the fixed set of primitive kinds the spec lists
(section 6): boolean, 16/32/64-bit integer, 32/64-bit float, text,
binary-document with two sub-encodings, 128-bit identifier. -/
def specListedKind : ColumnKind → Bool
  | ColumnKind.boolK => true
  | ColumnKind.intK w => w == 16 || w == 32 || w == 64
  | ColumnKind.float32K => true
  | ColumnKind.float64K => true
  | ColumnKind.textK => true
  | ColumnKind.docK => true
  | ColumnKind.uuidK => true

namespace Sqlx

/-- src/connection_sqlx.rs deserialize_column: a match on the declared
column type string (a Rust string match is a chain of equality tests).
none models a panic: either the final unknown-type arm, a row.get on a
datum of the wrong shape, or the out-of-bounds slice value[1..] on empty
jsonb bytes.  Note the json arm: all four spellings are accepted, but only
the exact spelling json keeps the bytes unchanged; every other spelling
(including JSON) drops the first byte. -/
def deserialize_column (col_ty : String) (d : ColumnData) : Option PyValue :=
  match col_ty with
  | "bool" | "BOOL" =>
    match d with
    | ColumnData.boolD b => some (PyValue.pyBool b)
    | _ => none
  | "int2" | "INT2" =>
    match d with
    | ColumnData.intD bits => some (PyValue.pyInt 16 (toSigned 16 bits))
    | _ => none
  | "int4" | "INT4" =>
    match d with
    | ColumnData.intD bits => some (PyValue.pyInt 32 (toSigned 32 bits))
    | _ => none
  | "int8" | "INT8" =>
    match d with
    | ColumnData.intD bits => some (PyValue.pyInt 64 (toSigned 64 bits))
    | _ => none
  | "float4" | "FLOAT4" =>
    match d with
    | ColumnData.floatD bits => some (PyValue.pyFloat32 bits)
    | _ => none
  | "float8" | "FLOAT8" =>
    match d with
    | ColumnData.floatD bits => some (PyValue.pyFloat64 bits)
    | _ => none
  | "text" | "unknown" | "bpchar" | "varchar" | "TEXT" | "UNKNOWN" | "BPCHAR" | "VARCHAR" =>
    match d with
    | ColumnData.textD s => some (PyValue.pyStr s)
    | _ => none
  | "name" | "NAME" =>
    match d with
    | ColumnData.textD s => some (PyValue.pyStr s)
    | _ => none
  | "oid" | "OID" =>
    match d with
    | ColumnData.intD bits => some (PyValue.pyInt 32 (toSigned 32 bits))
    | _ => none
  | "json" | "jsonb" | "JSON" | "JSONB" =>
    match d with
    | ColumnData.bytesD bs =>
      if col_ty = "json" then some (PyValue.pyJson bs)
      else if bs = [] then none else some (PyValue.pyJson bs.tail)
    | _ => none
  | "uuid" | "UUID" =>
    match d with
    | ColumnData.bytesD bs => some (PyValue.pyUuid bs)
    | _ => none
  | _ => none

/-- The declared-type spellings src/connection_sqlx.rs deserialize_column
matches (every other spelling falls into the panicking catch-all arm). -/
def accepted_spellings : List String :=
  ["bool", "BOOL", "int2", "INT2", "int4", "INT4", "int8", "INT8",
   "float4", "FLOAT4", "float8", "FLOAT8",
   "text", "unknown", "bpchar", "varchar", "TEXT", "UNKNOWN", "BPCHAR", "VARCHAR",
   "name", "NAME", "oid", "OID", "json", "jsonb", "JSON", "JSONB", "uuid", "UUID"]

end Sqlx

namespace RustPg

/-- The postgres crate column Type values matched by
src/connection_rust_pg.rs deserialize_column; other n stands for all
remaining postgres types (identified by their oid), which fall into the
panicking catch-all arm. -/
inductive PgType
  | BOOL
  | CHAR
  | INT2
  | INT4
  | INT8
  | FLOAT4
  | FLOAT8
  | TEXT
  | UNKNOWN
  | BPCHAR
  | VARCHAR
  | OID
  | NAME
  | JSON
  | JSONB
  | UUID
  | other (oid : Nat)
deriving DecidableEq, Repr

/-- src/connection_rust_pg.rs deserialize_column: a match on the column
Type.  none models a panic (the unknown-type arm, a row.get on a datum of
the wrong shape, or the out-of-bounds slice on empty jsonb bytes).  CHAR
is decoded via i8, OID via u32 (unsigned, so the bit pattern is the
value), JSON keeps the raw bytes, JSONB drops the leading version byte. -/
def deserialize_column (col_ty : PgType) (d : ColumnData) : Option PyValue :=
  match col_ty with
  | PgType.BOOL =>
    match d with
    | ColumnData.boolD b => some (PyValue.pyBool b)
    | _ => none
  | PgType.CHAR =>
    match d with
    | ColumnData.intD bits => some (PyValue.pyInt 8 (toSigned 8 bits))
    | _ => none
  | PgType.INT2 =>
    match d with
    | ColumnData.intD bits => some (PyValue.pyInt 16 (toSigned 16 bits))
    | _ => none
  | PgType.INT4 =>
    match d with
    | ColumnData.intD bits => some (PyValue.pyInt 32 (toSigned 32 bits))
    | _ => none
  | PgType.INT8 =>
    match d with
    | ColumnData.intD bits => some (PyValue.pyInt 64 (toSigned 64 bits))
    | _ => none
  | PgType.FLOAT4 =>
    match d with
    | ColumnData.floatD bits => some (PyValue.pyFloat32 bits)
    | _ => none
  | PgType.FLOAT8 =>
    match d with
    | ColumnData.floatD bits => some (PyValue.pyFloat64 bits)
    | _ => none
  | PgType.TEXT | PgType.UNKNOWN | PgType.BPCHAR | PgType.VARCHAR =>
    match d with
    | ColumnData.textD s => some (PyValue.pyStr s)
    | _ => none
  | PgType.OID =>
    match d with
    | ColumnData.intD bits => some (PyValue.pyInt 32 (bits : Int))
    | _ => none
  | PgType.NAME =>
    match d with
    | ColumnData.textD s => some (PyValue.pyStr s)
    | _ => none
  | PgType.JSON =>
    match d with
    | ColumnData.bytesD bs => some (PyValue.pyJson bs)
    | _ => none
  | PgType.JSONB =>
    match d with
    | ColumnData.bytesD bs =>
      if bs = [] then none else some (PyValue.pyJson bs.tail)
    | _ => none
  | PgType.UUID =>
    match d with
    | ColumnData.bytesD bs => some (PyValue.pyUuid bs)
    | _ => none
  | PgType.other _ => none

end RustPg

/-- The postgres type denoted by each sqlx declared-type spelling: the
link identifying the common domain of the two backends (the postgres crate
compares resolved Type values, sqlx compares the client-supplied type-name
string; both case spellings of a name denote the same column type). -/
def spellingType (s : String) : Option RustPg.PgType :=
  match s with
  | "bool" | "BOOL" => some RustPg.PgType.BOOL
  | "int2" | "INT2" => some RustPg.PgType.INT2
  | "int4" | "INT4" => some RustPg.PgType.INT4
  | "int8" | "INT8" => some RustPg.PgType.INT8
  | "float4" | "FLOAT4" => some RustPg.PgType.FLOAT4
  | "float8" | "FLOAT8" => some RustPg.PgType.FLOAT8
  | "text" | "TEXT" => some RustPg.PgType.TEXT
  | "unknown" | "UNKNOWN" => some RustPg.PgType.UNKNOWN
  | "bpchar" | "BPCHAR" => some RustPg.PgType.BPCHAR
  | "varchar" | "VARCHAR" => some RustPg.PgType.VARCHAR
  | "name" | "NAME" => some RustPg.PgType.NAME
  | "oid" | "OID" => some RustPg.PgType.OID
  | "json" | "JSON" => some RustPg.PgType.JSON
  | "jsonb" | "JSONB" => some RustPg.PgType.JSONB
  | "uuid" | "UUID" => some RustPg.PgType.UUID
  | _ => none

/-- C4 counterexample: the rust-postgres deserialize_column accepts the
CHAR column type (it does not panic) and decodes it as an 8-bit integer, a
primitive kind outside the fixed set the spec lists, refuting that both
backends accept exactly the spec's set and panic on everything else. -/
theorem C4_counterexample :
    RustPg.deserialize_column RustPg.PgType.CHAR (ColumnData.intD 5) =
      some (PyValue.pyInt 8 5) ∧
    specListedKind (ColumnKind.intK 8) = false := by
  decide

/-- C4 amended: every value the sqlx deserialize_column produces is of a
kind the spec lists; every value the rust-postgres deserialize_column
produces is of a listed kind except for the CHAR type, which it
additionally accepts as an 8-bit integer; any other column type panics
(the rust-postgres catch-all arm, and any sqlx spelling outside the
accepted list), and every accepted spelling of both backends does decode
some datum successfully. -/
theorem C4_amended_accepted_kinds :
    (∀ s d v, Sqlx.deserialize_column s d = some v →
        specListedKind (kindOf v) = true) ∧
    (∀ t d v, RustPg.deserialize_column t d = some v →
        specListedKind (kindOf v) = true ∨
          (t = RustPg.PgType.CHAR ∧ kindOf v = ColumnKind.intK 8)) ∧
    (∀ n d, RustPg.deserialize_column (RustPg.PgType.other n) d = none) ∧
    (∀ s d, (Sqlx.deserialize_column s d).isSome = true →
        s ∈ Sqlx.accepted_spellings) ∧
    (Sqlx.accepted_spellings.all (fun s =>
        (Sqlx.deserialize_column s (ColumnData.boolD true)).isSome ||
        (Sqlx.deserialize_column s (ColumnData.intD 0)).isSome ||
        (Sqlx.deserialize_column s (ColumnData.floatD 0)).isSome ||
        (Sqlx.deserialize_column s (ColumnData.textD "")).isSome ||
        (Sqlx.deserialize_column s (ColumnData.bytesD [1, 49])).isSome) = true) ∧
    ([RustPg.PgType.BOOL, RustPg.PgType.CHAR, RustPg.PgType.INT2,
      RustPg.PgType.INT4, RustPg.PgType.INT8, RustPg.PgType.FLOAT4,
      RustPg.PgType.FLOAT8, RustPg.PgType.TEXT, RustPg.PgType.UNKNOWN,
      RustPg.PgType.BPCHAR, RustPg.PgType.VARCHAR, RustPg.PgType.OID,
      RustPg.PgType.NAME, RustPg.PgType.JSON, RustPg.PgType.JSONB,
      RustPg.PgType.UUID].all (fun t =>
        (RustPg.deserialize_column t (ColumnData.boolD true)).isSome ||
        (RustPg.deserialize_column t (ColumnData.intD 0)).isSome ||
        (RustPg.deserialize_column t (ColumnData.floatD 0)).isSome ||
        (RustPg.deserialize_column t (ColumnData.textD "")).isSome ||
        (RustPg.deserialize_column t (ColumnData.bytesD [1, 49])).isSome) = true) := by
  refine ⟨?_, ?_, ?_, ?_, by decide, by decide⟩
  · intro s d v h
    unfold Sqlx.deserialize_column at h
    cases d <;> split at h
    all_goals try split at h
    all_goals try split at h
    all_goals try split at h
    all_goals first
      | exact Option.noConfusion h
      | (simp only [Option.some.injEq] at h; subst h; rfl)
  · intro t d v h
    cases t <;> cases d <;> simp only [RustPg.deserialize_column] at h <;>
      try split_ifs at h
    all_goals first
      | exact Option.noConfusion h
      | (simp only [Option.some.injEq] at h; subst h;
         first
           | exact Or.inl rfl
           | exact Or.inr ⟨rfl, rfl⟩)
  · intro n d
    cases d <;> rfl
  · intro s d h
    unfold Sqlx.deserialize_column at h
    split at h
    all_goals first
      | decide
      | simp at h

/-- Witness for C4 amended at concrete inputs: the spelling bool decodes a
boolean datum to a value of a listed kind, and bool is an accepted sqlx
spelling. -/
theorem C4_amended_witness :
    specListedKind (kindOf (PyValue.pyBool true)) = true ∧
    "bool" ∈ Sqlx.accepted_spellings :=
  ⟨C4_amended_accepted_kinds.1 "bool" (ColumnData.boolD true)
      (PyValue.pyBool true) (by decide),
   C4_amended_accepted_kinds.2.2.2.1 "bool" (ColumnData.boolD true) (by decide)⟩

/-- C5: evaluation of the sqlx deserialize_column at the failing input.
The accepted spelling JSON names the plain (json) sub-encoding, yet the
code strips its first byte before JSON-parsing (only the exact lowercase
spelling json keeps the bytes unchanged), while the rust-postgres backend
and the lowercase sqlx spelling both parse the raw bytes unchanged: on the
column bytes [49, 50] the sqlx backend under spelling JSON parses [50]. -/
theorem C5_json_uppercase_strips_byte :
    Sqlx.deserialize_column "JSON" (ColumnData.bytesD [49, 50]) =
      some (PyValue.pyJson [50]) ∧
    Sqlx.deserialize_column "json" (ColumnData.bytesD [49, 50]) =
      some (PyValue.pyJson [49, 50]) ∧
    Sqlx.deserialize_column "jsonb" (ColumnData.bytesD [49, 50]) =
      some (PyValue.pyJson [50]) ∧
    Sqlx.deserialize_column "JSONB" (ColumnData.bytesD [49, 50]) =
      some (PyValue.pyJson [50]) ∧
    RustPg.deserialize_column RustPg.PgType.JSON (ColumnData.bytesD [49, 50]) =
      some (PyValue.pyJson [49, 50]) ∧
    RustPg.deserialize_column RustPg.PgType.JSONB (ColumnData.bytesD [49, 50]) =
      some (PyValue.pyJson [50]) := by
  decide

/-- A w-bit pattern below the sign threshold is its own signed value. -/
theorem toSigned_of_lt {w bits : Nat} (h : bits < 2 ^ (w - 1)) :
    toSigned w bits = bits := by
  simp [toSigned, h]

/-- An if-guarded none equals some iff the guard fails and the values agree. -/
theorem ite_none_eq_some {α : Type} {p : Prop} [Decidable p] {x v : α} :
    (if p then none else some x) = some v ↔ ¬p ∧ x = v := by
  split <;> simp_all

/-- C8 counterexample: on the oid kind, common to both backends, with the
identical underlying 32-bit column pattern 2^31, rust-postgres decodes the
value through u32 giving 2147483648 while sqlx decodes it through i32
giving -2147483648: the two decoding switches are not equivalent on their
common domain. -/
theorem C8_counterexample :
    spellingType "oid" = some RustPg.PgType.OID ∧
    Sqlx.deserialize_column "oid" (ColumnData.intD (2 ^ 31)) =
      some (PyValue.pyInt 32 (-2147483648)) ∧
    RustPg.deserialize_column RustPg.PgType.OID (ColumnData.intD (2 ^ 31)) =
      some (PyValue.pyInt 32 2147483648) := by
  refine ⟨rfl, ?_, rfl⟩
  norm_num [Sqlx.deserialize_column, toSigned]

/-- C8 amended: for every sqlx spelling and the postgres type it denotes,
and identical underlying column data, the two backends produce equal
Python values, except on the oid kind when the 32-bit pattern has its high
bit set (unsigned versus signed reinterpretation) and except under the
sqlx spelling JSON (whose first byte is wrongly stripped); both exceptions
are excluded by hypothesis. -/
theorem C8_amended_backend_equivalence (s : String) (t : RustPg.PgType)
    (d : ColumnData) (v w : PyValue)
    (hst : spellingType s = some t)
    (hs : Sqlx.deserialize_column s d = some v)
    (hr : RustPg.deserialize_column t d = some w)
    (hoid : ∀ bits, t = RustPg.PgType.OID → d = ColumnData.intD bits →
      bits < 2 ^ 31)
    (hjson : s ≠ "JSON") : v = w := by
  unfold spellingType at hst
  split at hst
  all_goals first
    | exact Option.noConfusion hst
    | exact absurd rfl hjson
    | (obtain rfl := Option.some.inj hst
       cases d <;>
         simp_all [Sqlx.deserialize_column, RustPg.deserialize_column,
           ite_none_eq_some] <;>
         (subst hs; subst hr; rw [toSigned_of_lt hoid]))

/-- Witness for C8 amended at a concrete input: both backends decode an
int2 column with pattern 5 to the same value. -/
theorem C8_amended_witness : PyValue.pyInt 16 5 = PyValue.pyInt 16 5 :=
  C8_amended_backend_equivalence "int2" RustPg.PgType.INT2
    (ColumnData.intD 5) (PyValue.pyInt 16 5) (PyValue.pyInt 16 5)
    (by decide) (by decide) (by decide)
    (fun bits ht _ => absurd ht (by decide)) (by decide)

/-- The terminal outcome of executing a query task: a completed value, or
a panic of the invoking task (unwrap or expect on a driver error). -/
inductive TaskOutcome (α : Type)
  | completed (v : α)
  | panicked
deriving DecidableEq, Repr

/-- Modelled from the spec: executor completion delivery (the slonik_rt
executor, whose source is not under src/).  Per spec section 4.1, on
completion the task's value is converted and on_done is invoked exactly
once with it; on unrecoverable internal failure the task is dropped and
the failure is surfaced as a process fault, with no per-task error
channel.  The returned list collects every value delivered to the
completion callback. -/
def callbackDeliveries {α β : Type} (convert : α → β) :
    TaskOutcome α → List β
  | TaskOutcome.completed v => [convert v]
  | TaskOutcome.panicked => []

namespace Sqlx

/-- row.get::<T, _>(col_idx) on a fetched row: the row's datum at that
index, decoded by declared type; an index beyond the row's columns panics
in the driver (none). -/
def deserialize_row_column (row : List ColumnData) (col_ty : String)
    (col_idx : Nat) : Option PyValue :=
  match row[col_idx]? with
  | some dd => deserialize_column col_ty dd
  | none => none

/-- The SlonikRows wrapper struct of src/connection_sqlx.rs, pairing the
client-supplied column-type names with the fetched rows. -/
structure SlonikRows where
  columns : List String
  rows : List (List ColumnData)
deriving DecidableEq, Repr

/-- The per-row tuple built inside SlonikRows::to_object:
columns.iter().enumerate() mapped through deserialize_column at each
(col_idx, col_ty). -/
def row_tuple (columns : List String) (row : List ColumnData) :
    List (Option PyValue) :=
  columns.enum.map (fun p => deserialize_row_column row p.2 p.1)

/-- SlonikRows::to_object: the list of per-row tuples. -/
def SlonikRows.to_object (sr : SlonikRows) : List (List (Option PyValue)) :=
  sr.rows.map (fun row => row_tuple sr.columns row)

/-- do_query of src/connection_sqlx.rs: fetches all rows of the query on
the pool (the network fetch is abstracted by its result, the pool by an
id) and unwraps: a driver-reported error panics the invoking task;
success wraps the column names and rows in SlonikRows. -/
def do_query (pool : Nat) (query : String)
    (fetch : Except String (List (List ColumnData)))
    (columns : List String) : TaskOutcome SlonikRows :=
  match fetch with
  | Except.ok rows => TaskOutcome.completed { columns := columns, rows := rows }
  | Except.error _ => TaskOutcome.panicked

end Sqlx

namespace RustPg

/-- deserialize_rows of src/connection_rust_pg.rs: for each row, a tuple
over indices 0..columns.len(), decoding column col_idx with its resolved
type; the row schema is given alongside the rows. -/
def deserialize_rows (columns : List PgType) (rows : List (List ColumnData)) :
    List (List (Option PyValue)) :=
  rows.map (fun row =>
    (List.range columns.length).map (fun col_idx =>
      match columns[col_idx]?, row[col_idx]? with
      | some ty, some dd => deserialize_column ty dd
      | _, _ => none))

/-- RustPgConnection::query of src/connection_rust_pg.rs: executes the
query synchronously (the wire execution is abstracted by its result,
carrying the result schema and rows) and expects success: a
driver-reported error panics; success deserializes all rows. -/
def query (fetch : Except String (List PgType × List (List ColumnData))) :
    TaskOutcome (List (List (Option PyValue))) :=
  match fetch with
  | Except.ok r => TaskOutcome.completed (deserialize_rows r.1 r.2)
  | Except.error _ => TaskOutcome.panicked

end RustPg

/-- C3: for every query whose execution the driver reports as failed, the
invoking task panics in both backends, and nothing is ever delivered to
the completion-callback channel for that task: no value, and in particular
no error value. -/
theorem C3_driver_error_fatal (pool : Nat) (q : String) (e : String)
    (columns : List String) :
    Sqlx.do_query pool q (Except.error e) columns = TaskOutcome.panicked ∧
    callbackDeliveries Sqlx.SlonikRows.to_object
      (Sqlx.do_query pool q (Except.error e) columns) = [] ∧
    RustPg.query (Except.error e) = TaskOutcome.panicked ∧
    callbackDeliveries id (RustPg.query (Except.error e)) = [] :=
  ⟨rfl, rfl, rfl, rfl⟩

/-- C9: on a successful fetch the completion callback receives exactly the
SlonikRows conversion, in which every row becomes a tuple of exactly
columns.length elements, element i being decoded from the row's column i
according to columns[i]; row columns at indices at or beyond
columns.length are silently ignored (appending extra columns to a row long
enough leaves its tuple unchanged). -/
theorem C9_row_tuples (pool : Nat) (q : String) (columns : List String)
    (rows : List (List ColumnData)) :
    callbackDeliveries Sqlx.SlonikRows.to_object
        (Sqlx.do_query pool q (Except.ok rows) columns) =
      [Sqlx.SlonikRows.to_object { columns := columns, rows := rows }] ∧
    (∀ tup ∈ Sqlx.SlonikRows.to_object { columns := columns, rows := rows },
      tup.length = columns.length) ∧
    (∀ row : List ColumnData, ∀ i : Nat,
      (Sqlx.row_tuple columns row)[i]? =
        (columns[i]?).map (fun ty => Sqlx.deserialize_row_column row ty i)) ∧
    (∀ row extra : List ColumnData, columns.length ≤ row.length →
      Sqlx.row_tuple columns (row ++ extra) = Sqlx.row_tuple columns row) := by
  refine ⟨rfl, ?_, ?_, ?_⟩
  · intro tup htup
    obtain ⟨row, _, rfl⟩ := List.mem_map.mp htup
    simp [Sqlx.row_tuple]
  · intro row i
    simp only [Sqlx.row_tuple, List.getElem?_map, List.getElem?_enum,
      Option.map_map]
    cases columns[i]? <;> rfl
  · intro row extra hlen
    refine List.map_congr_left (fun p hp => ?_)
    have hlt : p.1 < columns.length := by
      have h1 := List.mem_enum_iff_getElem?.mp hp
      obtain ⟨hlt', -⟩ := List.getElem?_eq_some.mp h1
      exact hlt'
    unfold Sqlx.deserialize_row_column
    rw [List.getElem?_append, if_pos (lt_of_lt_of_le hlt hlen)]

/-- Witness for C9 at concrete inputs: with column list [int2] a row of
two columns yields a one-element tuple, equal whether or not the extra
boolean column is present. -/
theorem C9_row_tuples_witness :
    Sqlx.row_tuple ["int2"]
        ([ColumnData.intD 5] ++ [ColumnData.boolD true]) =
      Sqlx.row_tuple ["int2"] [ColumnData.intD 5] ∧
    [some (PyValue.pyInt 16 5)].length = ["int2"].length :=
  ⟨(C9_row_tuples 0 "q" ["int2"] []).2.2.2 [ColumnData.intD 5]
      [ColumnData.boolD true] (by decide),
   (C9_row_tuples 0 "q" ["int2"]
      [[ColumnData.intD 5]]).2.1 [some (PyValue.pyInt 16 5)] (by decide)⟩

namespace SqlxConn

/-- The observable state of one SqlxConnection and its pool Arc:
whether the cheating cache feature is compiled in, whether the connection
object itself is still live (its Drop impl not yet run), the Arc strong
count of the pool, the number of live spawned query futures (each owning
one strong reference), and the cache contents (query text to the id of the
cached Python rows object). -/
structure ConnState where
  cheating : Bool
  connLive : Bool
  strong : Nat
  futures : Nat
  cache : List (String × Nat)
deriving DecidableEq, Repr

/-- SqlxConnection::new: builds the pool, wraps it in an Arc and stores it
via Arc::into_raw, so the stored raw pointer owns strong count 1; under
the cheating feature the cache starts empty. -/
def newConn (cheating : Bool) : ConnState :=
  { cheating := cheating, connLive := true, strong := 1, futures := 0,
    cache := [] }

/-- HashMap::get on the cache. -/
def cacheLookup (c : List (String × Nat)) (q : String) : Option Nat :=
  match c.find? (fun e => e.1 == q) with
  | some e => some e.2
  | none => none

/-- HashMap::insert on the cache: prepends the new binding; since
cacheLookup takes the first match, this shadows any previous binding for
q, which is observationally HashMap::insert (replace or add). -/
def cacheInsert (c : List (String × Nat)) (q : String) (v : Nat) :
    List (String × Nat) :=
  (q, v) :: c

/-- What a call to SqlxConnection::query did: invoked the completion
callback synchronously with a cached value, or spawned a query task. -/
inductive QueryEffect
  | syncCallback (v : Nat)
  | spawned
deriving DecidableEq, Repr

/-- SqlxConnection::query (src/connection_sqlx.rs): under the cheating
feature it first looks the query text up in the cache under the lock and,
on a hit, synchronously invokes the completion callback with the cached
rows and returns, touching neither the pool nor the executor.  Otherwise
it takes one new strong reference to the pool (Arc::from_raw, clone,
forget leaves the stored reference unchanged and hands the clone to the
future) and spawns the query future. -/
def query (st : ConnState) (q : String) : ConnState × QueryEffect :=
  match (if st.cheating then cacheLookup st.cache q else none) with
  | some v => (st, QueryEffect.syncCallback v)
  | none =>
    ({ st with strong := st.strong + 1, futures := st.futures + 1 },
     QueryEffect.spawned)

/-- A spawned query future completes: under the cheating feature it
inserts the converted rows into the cache under the lock before the
executor delivers the completion callback; in either configuration the
future is then dropped, releasing its strong reference. -/
def finishFuture (st : ConnState) (q : String) (v : Nat) : ConnState :=
  { st with
    strong := st.strong - 1, futures := st.futures - 1,
    cache := if st.cheating then cacheInsert st.cache q v else st.cache }

/-- A spawned query future is dropped without completing, releasing its
strong reference. -/
def dropFuture (st : ConnState) : ConnState :=
  { st with strong := st.strong - 1, futures := st.futures - 1 }

/-- Drop for SqlxConnection: Arc::from_raw(self.pool) reconstructs the
stored owner and drops it, releasing the connection's strong reference. -/
def dropConn (st : ConnState) : ConnState :=
  { st with strong := st.strong - 1, connLive := false }

/-- The states reachable from a fresh connection through the operations
the program can perform. -/
inductive Reach : ConnState → Prop
  | init (cheating : Bool) : Reach (newConn cheating)
  | step_query (st : ConnState) (q : String) :
      Reach st → Reach (query st q).1
  | step_finish (st : ConnState) (q : String) (v : Nat) :
      Reach st → 0 < st.futures → Reach (finishFuture st q v)
  | step_dropFuture (st : ConnState) :
      Reach st → 0 < st.futures → Reach (dropFuture st)
  | step_dropConn (st : ConnState) :
      Reach st → st.connLive = true → Reach (dropConn st)

/-- The pool's strong count is exactly the connection's own stored
reference plus one reference per live spawned future. -/
theorem strong_count_invariant (st : ConnState) (h : Reach st) :
    st.strong = (if st.connLive then 1 else 0) + st.futures := by
  induction h with
  | init cheating => simp [newConn]
  | step_query st q ih hih =>
    unfold query
    cases hc : (if st.cheating then cacheLookup st.cache q else none) with
    | some v => simpa using hih
    | none => simp only []; omega
  | step_finish st q v ih hfut hih =>
    simp only [finishFuture]
    split at hih <;> simp_all <;> omega
  | step_dropFuture st ih hfut hih =>
    simp only [dropFuture]
    split at hih <;> simp_all <;> omega
  | step_dropConn st ih hlive hih =>
    simp only [dropConn]
    simp_all

/-- HashMap::insert keeps every present key present. -/
theorem cacheLookup_isSome_cacheInsert (c : List (String × Nat))
    (q k : String) (v : Nat) (h : (cacheLookup c k).isSome = true) :
    (cacheLookup (cacheInsert c q v) k).isSome = true := by
  unfold cacheLookup at h ⊢
  unfold cacheInsert
  by_cases hqk : q = k
  · simp [List.find?, hqk]
  · simp only [List.find?, show ((q, v).1 == k) = false by simp [hqk]]
    exact h

/-- C2 counterexample: with the cheating cache feature compiled in, after
one query for q has completed and populated the cache (a reachable
state), a second call to query q is served synchronously from the cache
and leaves the pool's strong count unchanged at 1: not every call to
SqlxConnection::query increases the pool's reference count by one. -/
theorem C2_counterexample :
    Reach (finishFuture (query (newConn true) "q").1 "q" 7) ∧
    (finishFuture (query (newConn true) "q").1 "q" 7).strong = 1 ∧
    (query (finishFuture (query (newConn true) "q").1 "q" 7) "q").1.strong = 1 ∧
    (query (finishFuture (query (newConn true) "q").1 "q" 7) "q").2 =
      QueryEffect.syncCallback 7 := by
  refine ⟨?_, by decide, by decide, by decide⟩
  exact Reach.step_finish _ "q" 7
    (Reach.step_query _ "q" (Reach.init true)) (by decide)

/-- C2 amended: every call to SqlxConnection::query that is not served
synchronously from the enabled query cache increases the pool's strong
count by exactly one, the new reference being held by the spawned query
future; query never changes whether the connection's own stored reference
is live; and in every reachable state the pool's strong count is zero
(the pool deallocated) exactly when the connection has been dropped and
every spawned query future has been dropped. -/
theorem C2_amended_pool_refcount (st : ConnState) (q : String)
    (h : Reach st) :
    ((st.cheating = true → cacheLookup st.cache q = none) →
      (query st q).1.strong = st.strong + 1 ∧
      (query st q).1.futures = st.futures + 1 ∧
      (query st q).2 = QueryEffect.spawned) ∧
    (query st q).1.connLive = st.connLive ∧
    (st.strong = 0 ↔ st.connLive = false ∧ st.futures = 0) := by
  have hinv := strong_count_invariant st h
  refine ⟨?_, ?_, ?_⟩
  · intro hmiss
    have hnone : (if st.cheating then cacheLookup st.cache q else none) = none := by
      cases hcb : st.cheating <;> simp_all
    simp [query, hnone]
  · unfold query
    cases (if st.cheating then cacheLookup st.cache q else none) <;> simp
  · cases hcl : st.connLive <;> simp_all <;> omega

/-- Witness for C2 amended at a concrete input: a fresh non-cheating
connection's first query raises the strong count from 1 to 2. -/
theorem C2_amended_pool_refcount_witness :
    (query (newConn false) "a").1.strong = (newConn false).strong + 1 := by
  have h := C2_amended_pool_refcount (newConn false) "a" (Reach.init false)
  exact (h.1 (fun hcb => absurd hcb (by decide))).1

/-- Events on the shared cache, as emitted by the code paths of the
cheating feature: acquiring and releasing the mutex, a cache lookup or
insert, a callback invocation, and spawning a task. -/
inductive CacheEv
  | lockAcq
  | lockRel
  | lookup (q : String)
  | insert (q : String)
  | callback
  | spawnTask
deriving DecidableEq, Repr

/-- The event trace of one SqlxConnection::query call: with the cheating
feature, lock then lookup, then on a hit the callback runs before the
guard is dropped at the early return, while on a miss the guard is
dropped at the end of the cache block before the task is spawned; without
the feature the call only spawns. -/
def queryTrace (cheating hit : Bool) (q : String) : List CacheEv :=
  if cheating then
    if hit then
      [CacheEv.lockAcq, CacheEv.lookup q, CacheEv.callback, CacheEv.lockRel]
    else
      [CacheEv.lockAcq, CacheEv.lookup q, CacheEv.lockRel, CacheEv.spawnTask]
  else [CacheEv.spawnTask]

/-- The event trace of a cheating query future completing: lock, insert
the converted rows, drop the guard at the end of the block, then the
executor delivers the completion callback. -/
def finishTrace (q : String) : List CacheEv :=
  [CacheEv.lockAcq, CacheEv.insert q, CacheEv.lockRel, CacheEv.callback]

/-- Checks that every cache lookup and insert in the trace occurs while
the mutex is held, d being the current depth of acquired locks. -/
def lockedOk : List CacheEv → Nat → Bool
  | [], _ => true
  | CacheEv.lockAcq :: rest, d => lockedOk rest (d + 1)
  | CacheEv.lockRel :: rest, d => lockedOk rest (d - 1)
  | CacheEv.lookup _ :: rest, d => decide (0 < d) && lockedOk rest d
  | CacheEv.insert _ :: rest, d => decide (0 < d) && lockedOk rest d
  | CacheEv.callback :: rest, d => lockedOk rest d
  | CacheEv.spawnTask :: rest, d => lockedOk rest d

/-- C7: with the cheating cache enabled, a query whose text is already
cached is answered synchronously from the cache, the state (pool strong
count, futures, cache) unchanged and no task spawned; every cache lookup
and insert, on the query path and on the future-completion path, happens
while the mutex is held; and no operation ever removes a cache entry:
query, future drop and connection drop leave the cache untouched, and a
future's completion insert keeps every present key present. -/
theorem C7_cache_behavior (st : ConnState) (q k : String) (v r : Nat) :
    (st.cheating = true → cacheLookup st.cache q = some r →
      query st q = (st, QueryEffect.syncCallback r)) ∧
    (∀ cheating hit : Bool, lockedOk (queryTrace cheating hit q) 0 = true) ∧
    lockedOk (finishTrace q) 0 = true ∧
    (query st q).1.cache = st.cache ∧
    (dropFuture st).cache = st.cache ∧
    (dropConn st).cache = st.cache ∧
    ((cacheLookup st.cache k).isSome = true →
      (cacheLookup (finishFuture st q v).cache k).isSome = true) := by
  refine ⟨?_, ?_, rfl, ?_, rfl, rfl, ?_⟩
  · intro hcb hhit
    simp [query, hcb, hhit]
  · intro cheating hit
    cases cheating <;> cases hit <;> rfl
  · unfold query
    cases (if st.cheating then cacheLookup st.cache q else none) <;> rfl
  · intro h
    unfold finishFuture
    cases hcb : st.cheating
    · simpa using h
    · simpa using cacheLookup_isSome_cacheInsert st.cache q k v h

/-- Witness for C7 at concrete inputs: a cheating connection whose cache
holds q answers query q synchronously with the cached value, and the key
q is still present after a completion insert overwrote it. -/
theorem C7_cache_behavior_witness :
    query (ConnState.mk true true 1 0 [("q", 5)]) "q" =
      (ConnState.mk true true 1 0 [("q", 5)], QueryEffect.syncCallback 5) ∧
    (cacheLookup
        (finishFuture (ConnState.mk true true 1 1 [("q", 5)]) "q" 9).cache
        "q").isSome = true := by
  constructor
  · exact (C7_cache_behavior (ConnState.mk true true 1 0 [("q", 5)])
      "q" "q" 0 5).1 rfl (by decide)
  · exact (C7_cache_behavior (ConnState.mk true true 1 1 [("q", 5)])
      "q" "q" 9 0).2.2.2.2.2.2 (by decide)

end SqlxConn

end SlonikProto
